import Mathlib

/-!
Verification of the deer-flow-researcher workflow service.

This file shallowly embeds the parts of the code base that the verified
properties talk about:

* `src/server/async_request.py` — the `ResearchStatus` enum;
* `src/server/job_manager.py` — `ResearchJob.update_status`,
  `ResearchJob.set_error`, `JobManager.update_job_status`;
* `src/graph/nodes.py` — routing logic of `planner_node`,
  `human_feedback_node`, `person_disambiguator_node`, and the step
  executor `_execute_agent_step` (including its `AGENT_RECURSION_LIMIT`
  parsing);
* `src/server/app.py` — the per-chunk accumulation of streamed tokens in
  `_run_research_job`;
* `src/middleware/auth.py` — `verify_api_key`.

Machine timestamps (`datetime.utcnow()`) are passed in explicitly as `Nat`
arguments; LLM and search results are inputs to the embedded functions.
-/

namespace DeerFlow

/-- Status of a research job (`ResearchStatus` in `src/server/async_request.py`). -/
inductive ResearchStatus where
  | PENDING
  | COORDINATING
  | PLANNING
  | RESEARCHING
  | REPORTING
  | COMPLETED
  | FAILED
deriving DecidableEq, Repr

/-- The string value of each `ResearchStatus` member (the enum values in
`src/server/async_request.py`; also the `status_map` of
`JobManager.update_job_status`). -/
def statusValue (s : ResearchStatus) : String :=
  match s with
  | .PENDING => "pending"
  | .COORDINATING => "coordinating"
  | .PLANNING => "planning"
  | .RESEARCHING => "researching"
  | .REPORTING => "reporting"
  | .COMPLETED => "completed"
  | .FAILED => "failed"

/-- Position of a status in the forward order
PENDING -> COORDINATING -> PLANNING -> RESEARCHING -> REPORTING -> COMPLETED,
with FAILED last. -/
def statusRank (s : ResearchStatus) : Nat :=
  match s with
  | .PENDING => 0
  | .COORDINATING => 1
  | .PLANNING => 2
  | .RESEARCHING => 3
  | .REPORTING => 4
  | .COMPLETED => 5
  | .FAILED => 6

/-- `next` is forward of `cur` in the order
PENDING -> COORDINATING -> PLANNING -> RESEARCHING -> REPORTING -> COMPLETED,
where any state -> FAILED is also allowed. -/
def forwardOf (cur next : ResearchStatus) : Bool :=
  next = ResearchStatus.FAILED || statusRank cur < statusRank next

/-- The in-memory job record (`ResearchJob.__init__` in
`src/server/job_manager.py`).  Timestamps are `Nat`; the `asyncio.Task`
handle is not modelled. -/
structure ResearchJob where
  job_id : String
  query : String
  status : ResearchStatus
  error : Option String
  thread_id : Option String
  final_report : Option String
  researcher_findings : Option String
  created_at : Nat
  updated_at : Nat
  completed_at : Option Nat
deriving DecidableEq, Repr

/-- A freshly constructed job (`ResearchJob.__init__`): status PENDING,
no error, no result fields, `completed_at` unset. -/
def mkResearchJob (job_id query : String) (now : Nat) : ResearchJob :=
  { job_id := job_id
    query := query
    status := ResearchStatus.PENDING
    error := none
    thread_id := none
    final_report := none
    researcher_findings := none
    created_at := now
    updated_at := now
    completed_at := none }

/-- `ResearchJob.update_status` (job_manager.py lines 35-41): stores the
requested status and refreshes `updated_at`; additionally sets
`completed_at` when (and only when) the requested status is COMPLETED. -/
def ResearchJob.update_status (j : ResearchJob) (status : ResearchStatus)
    (now : Nat) : ResearchJob :=
  let j := { j with status := status, updated_at := now }
  if status = ResearchStatus.COMPLETED then
    { j with completed_at := some now }
  else
    j

/-- `ResearchJob.set_error` (job_manager.py lines 43-48): marks the job
FAILED, stores the error text, and sets `updated_at` and `completed_at`. -/
def ResearchJob.set_error (j : ResearchJob) (error : String)
    (now : Nat) : ResearchJob :=
  { j with
    status := ResearchStatus.FAILED
    error := some error
    updated_at := now
    completed_at := some now }

/-- Progress percentage for a status
(`JobManager._get_progress_for_status`; the Python floats 0.0 .. 100.0 are
integral, represented as `Nat`). -/
def progressForStatus (s : ResearchStatus) : Nat :=
  match s with
  | .PENDING => 0
  | .COORDINATING => 10
  | .PLANNING => 20
  | .RESEARCHING => 50
  | .REPORTING => 80
  | .COMPLETED => 100
  | .FAILED => 0

/-- The row update that `JobManager.update_job_status` sends to the
database store (`SupabaseJobStore.update_job_status` arguments). -/
structure DbStatusUpdate where
  db_status : String
  progress : Nat
  current_step : String
deriving DecidableEq, Repr

/-- `JobManager.update_job_status` (job_manager.py lines 160-185): calls
`job.update_status(status)` on the in-memory record and issues a database
update carrying the mapped status string, progress, and current step.
Neither part checks the previous status. -/
def JobManager.update_job_status (j : ResearchJob) (status : ResearchStatus)
    (now : Nat) : ResearchJob × DbStatusUpdate :=
  (j.update_status status now,
   { db_status := statusValue status
     progress := progressForStatus status
     current_step := statusValue status })

/-- Claim C1 (counterexample): a job whose status is COMPLETED accepts an
`update_job_status` to PENDING — a target that is not forward of COMPLETED —
and the stored status becomes PENDING, i.e. the observed status moves
backwards instead of the update being rejected or ignored. -/
theorem C1_counterexample :
    forwardOf ResearchStatus.COMPLETED ResearchStatus.PENDING = false ∧
    ((JobManager.update_job_status
        ((JobManager.update_job_status (mkResearchJob "job-1" "q" 0)
            ResearchStatus.COMPLETED 1).1)
        ResearchStatus.PENDING 2).1).status = ResearchStatus.PENDING ∧
    ((JobManager.update_job_status (mkResearchJob "job-1" "q" 0)
        ResearchStatus.COMPLETED 1).1).status = ResearchStatus.COMPLETED := by
  decide

/-- Claim C1 (amended): `ResearchJob.update_status` and
`JobManager.update_job_status` apply the requested status unconditionally —
there is no forward-only guard — so after any update the stored status
equals the requested one, whether or not it is forward of the previous
status; forward ordering is maintained only by caller discipline. -/
theorem C1_amended (j : ResearchJob) (s : ResearchStatus) (now : Nat) :
    (j.update_status s now).status = s ∧
    (JobManager.update_job_status j s now).1.status = s := by
  refine ⟨?_, ?_⟩ <;>
    · simp only [ResearchJob.update_status, JobManager.update_job_status]
      split <;> rfl

/-- Claim C2 (counterexample): `update_status` with FAILED does not set
`completed_at` (it stays `none` although the claim says the transition into
FAILED sets it), and a second `update_status` with COMPLETED does overwrite
the earlier timestamp (1 becomes 2). -/
theorem C2_counterexample :
    ((mkResearchJob "job-1" "q" 0).update_status ResearchStatus.FAILED 5).completed_at
        = none ∧
    (((mkResearchJob "job-1" "q" 0).update_status ResearchStatus.COMPLETED 1).update_status
        ResearchStatus.COMPLETED 2).completed_at = some 2 := by
  decide

/-- Claim C2 (amended): `completed_at` is `none` on a fresh job;
`ResearchJob.update_status` sets it (to the current time, overwriting any
previous value) exactly when the requested status is COMPLETED and leaves it
untouched for every other status — in particular `update_status` with FAILED
does not set it; only `ResearchJob.set_error` sets it on the FAILED path. -/
theorem C2_amended (j : ResearchJob) (s : ResearchStatus) (e : String)
    (now : Nat) (h : s ≠ ResearchStatus.COMPLETED) :
    (mkResearchJob j.job_id j.query now).completed_at = none ∧
    (j.update_status ResearchStatus.COMPLETED now).completed_at = some now ∧
    (j.update_status s now).completed_at = j.completed_at ∧
    (j.set_error e now).completed_at = some now := by
  refine ⟨rfl, ?_, ?_, rfl⟩
  · simp [ResearchJob.update_status]
  · simp [ResearchJob.update_status, h]

/-- Claim C2 (witness): the amended claim instantiated at a concrete job,
the non-COMPLETED status FAILED, and time 7. -/
theorem C2_amended_witness :
    (mkResearchJob (mkResearchJob "job-1" "q" 0).job_id
        (mkResearchJob "job-1" "q" 0).query 7).completed_at = none ∧
    ((mkResearchJob "job-1" "q" 0).update_status
        ResearchStatus.COMPLETED 7).completed_at = some 7 ∧
    ((mkResearchJob "job-1" "q" 0).update_status
        ResearchStatus.FAILED 7).completed_at
        = (mkResearchJob "job-1" "q" 0).completed_at ∧
    ((mkResearchJob "job-1" "q" 0).set_error "boom" 7).completed_at = some 7 :=
  C2_amended (mkResearchJob "job-1" "q" 0) ResearchStatus.FAILED "boom" 7
    (by decide)

/-- Targets a graph node can route to (`goto` of the `Command` objects in
`src/graph/nodes.py`).  `terminal` models `"__end__"`. -/
inductive NodeTarget where
  | planner
  | human_feedback
  | research_team
  | researcher
  | coder
  | reporter
  | terminal
deriving DecidableEq, Repr

/-- Outcome of parsing the planner LLM response in `planner_node`
(`json.loads(repair_json_output(full_response))`, nodes.py lines 318-326):
either the parse raises `json.JSONDecodeError` (`invalid`), or it yields a
dict whose `has_enough_context` entry is truthy (`enoughContext`), or it
yields anything else (`needsFeedback`). -/
inductive ParsedPlan where
  | invalid
  | enoughContext
  | needsFeedback
deriving DecidableEq, Repr

/-- What `planner_node` decides: where to route, whether the planner LLM
was invoked, and whether the returned `Command` carries a state update. -/
structure PlannerDecision where
  goto : NodeTarget
  invokedLLM : Bool
  updatesState : Bool
deriving DecidableEq, Repr

/-- Control flow of `planner_node` (nodes.py lines 268-344) as a function
of the state fields it reads and of the parse outcome of the planner LLM
response (an external input, only consumed when the LLM is invoked):

* if `plan_iterations >= max_plan_iterations`, return immediately
  (goto `__end__` when `skip_reporting` else `reporter`), without invoking
  the LLM and without a state update;
* otherwise invoke the LLM; on `json.JSONDecodeError` goto `reporter` when
  `plan_iterations > 0` else `__end__`, with no state update — note this
  branch does not consult `skip_reporting`;
* on a parsed dict with truthy `has_enough_context`, update state and goto
  `__end__` when `skip_reporting` else `reporter`;
* otherwise update state and goto `human_feedback`. -/
def planner_node (plan_iterations max_plan_iterations : Nat)
    (skip_reporting : Bool) (parsed : ParsedPlan) : PlannerDecision :=
  if plan_iterations ≥ max_plan_iterations then
    { goto := if skip_reporting then .terminal else .reporter
      invokedLLM := false
      updatesState := false }
  else
    match parsed with
    | .invalid =>
      { goto := if plan_iterations > 0 then .reporter else .terminal
        invokedLLM := true
        updatesState := false }
    | .enoughContext =>
      { goto := if skip_reporting then .terminal else .reporter
        invokedLLM := true
        updatesState := true }
    | .needsFeedback =>
      { goto := .human_feedback
        invokedLLM := true
        updatesState := true }

/-- Parse-failure routing of `human_feedback_node` (nodes.py lines
372-386): the local `plan_iterations` is incremented before `json.loads`,
so on `json.JSONDecodeError` the check `plan_iterations > 1` sees the
incremented value; when it holds, goto `__end__` if `skip_reporting` else
`reporter`; otherwise goto `__end__`.  `plan_iterations_before` is the
state value before the increment. -/
def human_feedback_parse_fail (plan_iterations_before : Nat)
    (skip_reporting : Bool) : NodeTarget :=
  let plan_iterations := plan_iterations_before + 1
  if plan_iterations > 1 then
    if skip_reporting then .terminal else .reporter
  else
    .terminal

/-- Claim C3 (counterexample): in `planner_node`, with plan-iteration count
1 (below the ceiling 10) and `skip_reporting` set, a planner-output parse
failure routes to the reporter, not to the terminal state as the claim
requires when `skip_reporting` is set. -/
theorem C3_counterexample :
    (planner_node 1 10 true ParsedPlan.invalid).goto = NodeTarget.reporter ∧
    NodeTarget.reporter ≠ NodeTarget.terminal := by
  decide

/-- Claim C3 (amended): on a planner-output parse failure below the
iteration ceiling, first iteration (count 0) routes to the terminal state
in both nodes; on a later iteration `planner_node` routes to the reporter
unconditionally — `skip_reporting` is not consulted on that path — while
`human_feedback_node` routes to the reporter unless `skip_reporting` is
set, in which case it routes to the terminal state. -/
theorem C3_amended (iter maxIter : Nat) (skip : Bool)
    (h : iter < maxIter) :
    (planner_node iter maxIter skip ParsedPlan.invalid).goto
      = (if iter > 0 then NodeTarget.reporter else NodeTarget.terminal) ∧
    human_feedback_parse_fail iter skip
      = (if iter > 0 then (if skip then NodeTarget.terminal else NodeTarget.reporter)
         else NodeTarget.terminal) := by
  constructor
  · simp [planner_node, Nat.not_le.mpr h]
  · simp only [human_feedback_parse_fail]
    rcases Nat.eq_zero_or_pos iter with h0 | h0
    · simp [h0]
    · simp [Nat.lt_irrefl, h0, Nat.succ_lt_succ h0, Nat.pos_iff_ne_zero.mp h0]

/-- Claim C3 (witness): the amended claim at iteration count 1, ceiling 10,
with `skip_reporting` set. -/
theorem C3_amended_witness :
    ((planner_node 1 10 true ParsedPlan.invalid).goto
      = (if 1 > 0 then NodeTarget.reporter else NodeTarget.terminal)) ∧
    (human_feedback_parse_fail 1 true
      = (if 1 > 0 then (if true then NodeTarget.terminal else NodeTarget.reporter)
         else NodeTarget.terminal)) :=
  C3_amended 1 10 true (by decide)

/-- Claim C6: whenever `planner_node` is entered with a plan-iteration
count at or above the configured `max_plan_iterations`, it routes directly
to the reporter — or to the terminal state when `skip_reporting` is set —
without invoking the planner LLM and without a state update, whatever the
LLM parse outcome would have been. -/
theorem C6_ceiling_short_circuit (iter maxIter : Nat) (skip : Bool)
    (parsed : ParsedPlan) (h : maxIter ≤ iter) :
    (planner_node iter maxIter skip parsed).goto
      = (if skip then NodeTarget.terminal else NodeTarget.reporter) ∧
    (planner_node iter maxIter skip parsed).invokedLLM = false ∧
    (planner_node iter maxIter skip parsed).updatesState = false := by
  simp [planner_node, h]

/-- Claim C6 (witness): the ceiling short-circuit at iteration count 3,
ceiling 3, with `skip_reporting` unset. -/
theorem C6_witness :
    ((planner_node 3 3 false ParsedPlan.needsFeedback).goto
      = (if false then NodeTarget.terminal else NodeTarget.reporter)) ∧
    (planner_node 3 3 false ParsedPlan.needsFeedback).invokedLLM = false ∧
    (planner_node 3 3 false ParsedPlan.needsFeedback).updatesState = false :=
  C6_ceiling_short_circuit 3 3 false ParsedPlan.needsFeedback (by decide)

/-- Python truthiness of an optional string (`if candidate.get(key)` /
`if not step.execution_res`): `none` and the empty string are falsy. -/
def pyTruthy : Option String → Bool
  | none => false
  | some s => !s.isEmpty

/-- One disambiguation candidate, as produced under `CANDIDATE_SCHEMA`
(`src/config/person_schema.py`) and consumed by
`person_disambiguator_node`.  Optional fields model dict entries that may
be absent. -/
structure Candidate where
  id : String
  name : String
  title : Option String
  company : Option String
  location : Option String
  linkedin : Option String
  summary : Option String
deriving DecidableEq, Repr

/-- The enriched query built in the single-candidate branch of
`person_disambiguator_node` (nodes.py lines 179-185): start from the name
and append title, company, location in turn, each only when truthy. -/
def enrichedQuery (c : Candidate) : String :=
  let q := c.name
  let q := if pyTruthy c.title then q ++ " " ++ c.title.getD "" else q
  let q := if pyTruthy c.company then q ++ " at " ++ c.company.getD "" else q
  if pyTruthy c.location then q ++ " in " ++ c.location.getD "" else q

/-- One optional component of the spec-side enriched query: empty when the
field is absent or empty, otherwise the separator followed by the value. -/
def optPart (sep : String) (field : Option String) : String :=
  match field with
  | none => ""
  | some s => if s.isEmpty then "" else sep ++ s

/-- Modelled from the spec (§4.1 tie-break policy): the enriched query is
the candidate name followed by title, then company, then location, each
appended only if present. -/
def enrichedQuerySpec (c : Candidate) : String :=
  c.name ++ optPart " " c.title ++ optPart " at " c.company
    ++ optPart " in " c.location

theorem append_optPart (q sep : String) (field : Option String) :
    (if pyTruthy field then q ++ sep ++ field.getD "" else q)
      = q ++ optPart sep field := by
  rcases field with _ | s
  · simp [pyTruthy, optPart, String.append_empty]
  · simp only [pyTruthy, optPart, Option.getD_some]
    cases hs : s.isEmpty <;>
      simp [hs, String.append_empty, String.append_assoc]

theorem enrichedQuery_eq_spec (c : Candidate) :
    enrichedQuery c = enrichedQuerySpec c := by
  simp only [enrichedQuery, enrichedQuerySpec, append_optPart]

/-- The observation string stored for the reporter in quick research mode
(nodes.py lines 200-207); absent fields print as `N/A` via
`candidate.get(key, value)`. -/
def observationFor (c : Candidate) : String :=
  "Person identified: " ++ c.name ++ "\n"
    ++ "Title: " ++ c.title.getD "N/A" ++ "\n"
    ++ "Company: " ++ c.company.getD "N/A" ++ "\n"
    ++ "Location: " ++ c.location.getD "N/A" ++ "\n"
    ++ "Summary: " ++ c.summary.getD "N/A" ++ "\n"
    ++ "LinkedIn: " ++ c.linkedin.getD "N/A"

/-- The state update carried by the `Command` that
`person_disambiguator_node` returns.  A field is `none` both when the
update dict sets it to `None` and when the dict omits it (for
`research_topic` and `observations`, which only the single-candidate
branch sets). -/
structure DisambiguatorUpdate where
  enriched_person_query : Option String
  selected_candidate : Option Candidate
  disambiguation_candidates : Option (List Candidate)
  research_topic : Option String
  observations : Option (List String)
deriving DecidableEq, Repr

/-- Outcome of `person_disambiguator_node`: either a raised `ValueError`
(`error`) or a returned `Command` with an update and a goto target. -/
inductive DisambiguatorOutcome where
  | error (msg : String)
  | cont (update : DisambiguatorUpdate) (goto : NodeTarget)
deriving DecidableEq, Repr

/-- Decision logic of `person_disambiguator_node` (nodes.py lines
50-229) as a function of the candidate list the LLM extraction returned
(an external input):

* zero candidates: raise `ValueError` (no state transition);
* one candidate: enrich the query, select the candidate, clear the
  candidate list, update the research topic, store one formatted
  observation in quick research mode, and goto `reporter` in quick
  research mode else `planner`;
* two or more candidates: store the full list, clear the selection and the
  enriched query, and goto `__end__`. -/
def person_disambiguator_node (quick_research_mode : Bool)
    (person_name : String) (candidates : List Candidate) :
    DisambiguatorOutcome :=
  let next_node := if quick_research_mode then NodeTarget.reporter
                   else NodeTarget.planner
  match candidates with
  | [] =>
    .error ("Could not identify person matching \x27" ++ person_name
      ++ "\x27 in search results")
  | [c] =>
    .cont
      { enriched_person_query := some (enrichedQuery c)
        selected_candidate := some c
        disambiguation_candidates := none
        research_topic := some (enrichedQuery c)
        observations := if quick_research_mode then some [observationFor c]
                        else none }
      next_node
  | c1 :: c2 :: rest =>
    .cont
      { enriched_person_query := none
        selected_candidate := none
        disambiguation_candidates := some (c1 :: c2 :: rest)
        research_topic := none
        observations := none }
      NodeTarget.terminal

/-- Claim C4: the disambiguator rejects an empty candidate list by raising
an error; with exactly one candidate it selects that candidate, synthesizes
the enriched query (name, then title, then company, then location, each
appended only if present — stated via the spec-side `enrichedQuerySpec`),
and continues to the reporter in quick-research mode and to the planner
otherwise; with two or more candidates it stores the full list unchanged,
selects nobody, and routes to the terminal state. -/
theorem C4_disambiguator_cases (quick : Bool) (name : String)
    (c c1 c2 : Candidate) (rest : List Candidate) :
    (∃ msg, person_disambiguator_node quick name [] =
      DisambiguatorOutcome.error msg) ∧
    (person_disambiguator_node quick name [c] =
      DisambiguatorOutcome.cont
        { enriched_person_query := some (enrichedQuerySpec c)
          selected_candidate := some c
          disambiguation_candidates := none
          research_topic := some (enrichedQuerySpec c)
          observations := if quick then some [observationFor c] else none }
        (if quick then NodeTarget.reporter else NodeTarget.planner)) ∧
    (person_disambiguator_node quick name (c1 :: c2 :: rest) =
      DisambiguatorOutcome.cont
        { enriched_person_query := none
          selected_candidate := none
          disambiguation_candidates := some (c1 :: c2 :: rest)
          research_topic := none
          observations := none }
        NodeTarget.terminal) := by
  refine ⟨⟨_, rfl⟩, ?_, rfl⟩
  simp [person_disambiguator_node, enrichedQuery_eq_spec]

/-- Claim C5: whenever `person_disambiguator_node` completes without
raising, exactly one of the two state fields holds in the returned update:
either the candidate list is non-empty and no candidate is selected, or a
candidate is selected and the candidate list is null/empty — never both
and never neither. -/
theorem C5_exclusive (quick : Bool) (name : String)
    (candidates : List Candidate) (u : DisambiguatorUpdate) (g : NodeTarget)
    (h : person_disambiguator_node quick name candidates =
      DisambiguatorOutcome.cont u g) :
    Xor'
      ((∃ l, u.disambiguation_candidates = some l ∧ l ≠ []) ∧
        u.selected_candidate = none)
      (u.selected_candidate ≠ none ∧
        (u.disambiguation_candidates = none ∨
          u.disambiguation_candidates = some [])) := by
  match candidates with
  | [] =>
    exact absurd h (by simp [person_disambiguator_node])
  | [c] =>
    rw [show person_disambiguator_node quick name [c] =
        DisambiguatorOutcome.cont
          { enriched_person_query := some (enrichedQuery c)
            selected_candidate := some c
            disambiguation_candidates := none
            research_topic := some (enrichedQuery c)
            observations := if quick then some [observationFor c] else none }
          (if quick then NodeTarget.reporter else NodeTarget.planner)
      from rfl] at h
    obtain ⟨hu, -⟩ := DisambiguatorOutcome.cont.inj h
    subst hu
    exact Or.inr ⟨⟨by simp, Or.inl rfl⟩, by simp⟩
  | c1 :: c2 :: rest =>
    obtain ⟨hu, -⟩ := DisambiguatorOutcome.cont.inj h
    subst hu
    exact Or.inl ⟨⟨⟨c1 :: c2 :: rest, rfl, by simp⟩, rfl⟩, by simp⟩

/-- A concrete candidate used to instantiate witnesses. -/
def sampleCandidateA : Candidate :=
  { id := "candidate_1", name := "Jordan Lee", title := some "CTO"
    company := some "Acme", location := none, linkedin := none
    summary := some "CTO of Acme" }

/-- A second concrete candidate used to instantiate witnesses. -/
def sampleCandidateB : Candidate :=
  { id := "candidate_2", name := "Jordan Lee", title := some "Designer"
    company := some "Initech", location := some "Austin", linkedin := none
    summary := some "Designer at Initech" }

/-- The update produced for the two-candidate input of the C5 witness. -/
def sampleMultiUpdate : DisambiguatorUpdate :=
  { enriched_person_query := none
    selected_candidate := none
    disambiguation_candidates := some [sampleCandidateA, sampleCandidateB]
    research_topic := none
    observations := none }

/-- Claim C5 (witness): the exclusivity property at the concrete
two-candidate run. -/
theorem C5_exclusive_witness :
    Xor'
      ((∃ l, sampleMultiUpdate.disambiguation_candidates = some l ∧ l ≠ []) ∧
        sampleMultiUpdate.selected_candidate = none)
      (sampleMultiUpdate.selected_candidate ≠ none ∧
        (sampleMultiUpdate.disambiguation_candidates = none ∨
          sampleMultiUpdate.disambiguation_candidates = some [])) :=
  C5_exclusive true "Jordan Lee" [sampleCandidateA, sampleCandidateB]
    sampleMultiUpdate NodeTarget.terminal rfl

/-- One plan step (`Step` in `src/prompts/planner_model.py`, as consumed
by `_execute_agent_step`): title, description, and the nullable execution
result. -/
structure Step where
  title : String
  description : String
  execution_res : Option String
deriving DecidableEq, Repr

/-- A step counts as executed when its `execution_res` is truthy
(`if not step.execution_res` in nodes.py line 602 treats `None` and the
empty string as unexecuted). -/
def stepDone (s : Step) : Bool :=
  pyTruthy s.execution_res

/-- The loop of `_execute_agent_step` (nodes.py lines 598-606): walk the
steps in order, collecting executed steps into `completed_steps`, and stop
at the first unexecuted step, which becomes `current_step`. -/
def splitSteps : List Step → List Step × Option Step
  | [] => ([], none)
  | s :: rest =>
    if stepDone s then
      ((splitSteps rest).1.cons s, (splitSteps rest).2)
    else
      ([], some s)

/-- The in-place mutation `current_step.execution_res = response_content`
(nodes.py line 686), functionally: replace the result of the first
unexecuted step, leaving every other step untouched. -/
def markFirst : List Step → String → List Step
  | [], _ => []
  | s :: rest, resp =>
    if stepDone s then s :: markFirst rest resp
    else { s with execution_res := some resp } :: rest

/-- What `_execute_agent_step` produces: the plan steps after the call,
the observation list of the returned `Command`, the goto target, and
whether the delegated agent was invoked. -/
structure ExecuteResult where
  steps : List Step
  observations : List String
  goto : NodeTarget
  invokedAgent : Bool
deriving DecidableEq, Repr

/-- `_execute_agent_step` (nodes.py lines 590-700) at the state level,
with the delegated agent's final message content as the external input
`agentResponse`: when no unexecuted step exists, return
`Command(goto="research_team")` without touching anything and without
invoking the agent; otherwise invoke the agent on the current step, store
its response as that step's result, and append it to the observations. -/
def execute_agent_step (steps : List Step) (observations : List String)
    (agentResponse : String) : ExecuteResult :=
  match (splitSteps steps).2 with
  | none =>
    { steps := steps
      observations := observations
      goto := NodeTarget.research_team
      invokedAgent := false }
  | some _ =>
    { steps := markFirst steps agentResponse
      observations := observations ++ [agentResponse]
      goto := NodeTarget.research_team
      invokedAgent := true }

theorem splitSteps_snd (steps : List Step) :
    (splitSteps steps).2 = (steps.dropWhile stepDone).head? := by
  induction steps with
  | nil => rfl
  | cons s rest ih =>
    by_cases h : stepDone s <;> simp [splitSteps, List.dropWhile_cons, h, ih]

theorem head_dropWhile_stepDone (steps : List Step) (c : Step)
    (h : (steps.dropWhile stepDone).head? = some c) : stepDone c = false := by
  induction steps with
  | nil => simp at h
  | cons s rest ih =>
    by_cases hs : stepDone s
    · rw [List.dropWhile_cons, if_pos hs] at h
      exact ih h
    · rw [List.dropWhile_cons, if_neg hs] at h
      simp only [List.head?_cons, Option.some.injEq] at h
      rw [← h]
      exact Bool.eq_false_iff.mpr hs

theorem markFirst_spec (steps : List Step) (resp : String) (c : Step)
    (h : (steps.dropWhile stepDone).head? = some c) :
    markFirst steps resp
      = steps.takeWhile stepDone
        ++ { c with execution_res := some resp }
          :: (steps.dropWhile stepDone).tail := by
  induction steps with
  | nil => simp at h
  | cons s rest ih =>
    by_cases hs : stepDone s
    · rw [List.dropWhile_cons, if_pos hs] at h ⊢
      simp [markFirst, hs, List.takeWhile_cons, ih h]
    · rw [List.dropWhile_cons, if_neg hs] at h ⊢
      simp only [List.head?_cons, Option.some.injEq] at h
      subst h
      simp [markFirst, hs, List.takeWhile_cons]

/-- Claim C7: `_execute_agent_step` always routes back to research-team;
it invokes the delegated agent exactly when some step has an empty result;
the step it fills is the first step in sequence order with an empty result
(every earlier step keeps its populated result and later steps are
untouched); it appends exactly one entry to the observation list; and with
no unfinished step it mutates nothing.  The final conjunct states that the
selected current step always has an empty (never populated) result. -/
theorem C7_step_executor (steps : List Step) (obs : List String)
    (resp : String) :
    (execute_agent_step steps obs resp).goto = NodeTarget.research_team ∧
    (execute_agent_step steps obs resp).invokedAgent
      = ((steps.dropWhile stepDone).head?).isSome ∧
    (execute_agent_step steps obs resp).steps
      = (match (steps.dropWhile stepDone).head? with
         | none => steps
         | some c => steps.takeWhile stepDone
             ++ { c with execution_res := some resp }
               :: (steps.dropWhile stepDone).tail) ∧
    (execute_agent_step steps obs resp).observations
      = (match (steps.dropWhile stepDone).head? with
         | none => obs
         | some _ => obs ++ [resp]) ∧
    Option.all (fun c => !stepDone c) ((steps.dropWhile stepDone).head?)
      = true := by
  rcases hcur : (steps.dropWhile stepDone).head? with _ | c
  · have he : execute_agent_step steps obs resp
        = { steps := steps, observations := obs
            goto := NodeTarget.research_team, invokedAgent := false } := by
      unfold execute_agent_step
      rw [splitSteps_snd, hcur]
    rw [he]
    simp
  · have he : execute_agent_step steps obs resp
        = { steps := markFirst steps resp, observations := obs ++ [resp]
            goto := NodeTarget.research_team, invokedAgent := true } := by
      unfold execute_agent_step
      rw [splitSteps_snd, hcur]
    rw [he]
    refine ⟨rfl, rfl, ?_, rfl, ?_⟩
    · simpa using markFirst_spec steps resp c hcur
    · simpa using head_dropWhile_stepDone steps c hcur

/-- Leading and trailing whitespace stripping done by Python `int()` on
its string argument. -/
def stripWs (cs : List Char) : List Char :=
  ((cs.dropWhile Char.isWhitespace).reverse.dropWhile Char.isWhitespace).reverse

/-- Numeric value of one decimal digit character. -/
def digitVal (c : Char) : Nat :=
  c.toNat - 48

/-- Digit-run consumption of Python `int()` after the first digit:
further digits accumulate; a single underscore is allowed only between
digits; anything else fails (`ValueError`). -/
def pyDigitsAux : List Char → Nat → Option Nat
  | [], acc => some acc
  | c :: rest, acc =>
    if c.isDigit then
      pyDigitsAux rest (10 * acc + digitVal c)
    else if c = '_' then
      match rest with
      | [] => none
      | d :: rest2 =>
        if d.isDigit then pyDigitsAux rest2 (10 * acc + digitVal d)
        else none
    else
      none

/-- A non-empty digit run (with optional internal underscores) starting
at the first character; fails otherwise. -/
def pyDigits : List Char → Option Nat
  | [] => none
  | c :: rest => if c.isDigit then pyDigitsAux rest (digitVal c) else none

/-- Python `int(s)` on a decimal string: strip whitespace, read an
optional sign, then a non-empty digit run; `none` models `ValueError`. -/
def pyInt? (s : String) : Option Int :=
  match stripWs s.data with
  | '+' :: rest => (pyDigits rest).map Int.ofNat
  | '-' :: rest => (pyDigits rest).map (fun n => -(Int.ofNat n))
  | rest => (pyDigits rest).map Int.ofNat

/-- The recursion-limit computation of `_execute_agent_step` (nodes.py
lines 653-674): read `AGENT_RECURSION_LIMIT` with the string of the
default 25 as fallback, parse it with `int()`; a positive parse is used
as-is, a non-positive parse or a `ValueError` falls back to 25. -/
def getAgentRecursionLimit (env : Option String) : Nat :=
  let env_value_str := env.getD "25"
  match pyInt? env_value_str with
  | some parsed => if 0 < parsed then parsed.toNat else 25
  | none => 25

/-- Claim C9: for every value of `AGENT_RECURSION_LIMIT` (unset,
non-integer, zero, negative, or positive), the recursion limit passed to
the delegated agent is a positive integer; it equals the parsed value
when that parses as a positive integer and equals the default 25 in every
other case. -/
theorem C9_recursion_limit (env : Option String) :
    0 < getAgentRecursionLimit env ∧
    (env = none → getAgentRecursionLimit env = 25) ∧
    (∀ s, env = some s →
      (pyInt? s = none → getAgentRecursionLimit env = 25) ∧
      (∀ n : Int, pyInt? s = some n →
        (0 < n → (getAgentRecursionLimit env : Int) = n) ∧
        (n ≤ 0 → getAgentRecursionLimit env = 25))) := by
  have hsN : ∀ s : String, pyInt? s = none →
      getAgentRecursionLimit (some s) = 25 := by
    intro s h
    simp [getAgentRecursionLimit, h]
  have hsS : ∀ (s : String) (n : Int), pyInt? s = some n →
      getAgentRecursionLimit (some s) = if 0 < n then n.toNat else 25 := by
    intro s n h
    simp [getAgentRecursionLimit, h]
  rcases env with _ | s
  · refine ⟨by decide, fun _ => rfl, ?_⟩
    intro s hs
    exact absurd hs (by simp)
  · refine ⟨?_, ?_, ?_⟩
    · rcases hp : pyInt? s with _ | n
      · rw [hsN s hp]
        omega
      · rw [hsS s n hp]
        by_cases hn : 0 < n
        · rw [if_pos hn]
          omega
        · rw [if_neg hn]
          omega
    · intro h
      exact absurd h (by simp)
    · intro t ht
      obtain rfl : s = t := by injection ht
      constructor
      · intro hnone
        exact hsN s hnone
      · intro n hn
        rw [hsS s n hn]
        constructor
        · intro hpos
          rw [if_pos hpos]
          omega
        · intro hle
          rw [if_neg (by omega)]

/-- Claim C9 (witness): a non-integer value falls back to 25, the value
`"0"` falls back to 25, and the value `"40"` is used as-is. -/
theorem C9_witness :
    getAgentRecursionLimit (some "abc") = 25 ∧
    getAgentRecursionLimit (some "0") = 25 ∧
    (getAgentRecursionLimit (some "40") : Int) = (40 : Int) :=
  ⟨((C9_recursion_limit (some "abc")).2.2 "abc" rfl).1 (by decide),
   (((C9_recursion_limit (some "0")).2.2 "0" rfl).2 0 (by decide)).2
     (by decide),
   (((C9_recursion_limit (some "40")).2.2 "40" rfl).2 40 (by decide)).1
     (by decide)⟩

/-- Python substring membership `needle in hay` on character lists. -/
def containsSub (needle : List Char) : List Char → Bool
  | [] => needle.isPrefixOf []
  | c :: rest => needle.isPrefixOf (c :: rest) || containsSub needle rest

/-- Python `needle in hay` on strings. -/
def strContains (hay needle : String) : Bool :=
  containsSub needle.data hay.data

/-- One `on_chat_model_stream` event of the internal stream consumed by
`_run_research_job` (app.py lines 802-810): the emitting node
(`metadata["langgraph_node"]`) and the chunk content. -/
structure StreamChunkEvent where
  node : String
  content : String
deriving DecidableEq, Repr

/-- The two accumulation buckets of `_run_research_job`:
`final_report_chunks` and `researcher_findings_chunks`. -/
inductive Bucket where
  | report
  | findings
deriving DecidableEq, Repr

/-- Bucket selection for one streamed chunk (app.py lines 803-810): a
chunk with falsy content is ignored; otherwise `"reporter" in node` sends
it to the report bucket, `elif` `"researcher" in node or "coder" in node`
sends it to the findings bucket, and any other node is ignored. -/
def chunkDest (e : StreamChunkEvent) : Option Bucket :=
  if e.content.isEmpty then none
  else if strContains e.node "reporter" then some Bucket.report
  else if strContains e.node "researcher" || strContains e.node "coder" then
    some Bucket.findings
  else none

/-- One step of the accumulation loop: append the chunk content to the
selected bucket, if any. -/
def chunkStep (acc : List String × List String) (e : StreamChunkEvent) :
    List String × List String :=
  match chunkDest e with
  | some Bucket.report => (acc.1 ++ [e.content], acc.2)
  | some Bucket.findings => (acc.1, acc.2 ++ [e.content])
  | none => acc

/-- The whole accumulation over the event stream
(`final_report_chunks`, `researcher_findings_chunks`). -/
def accumulateChunks (events : List StreamChunkEvent) :
    List String × List String :=
  events.foldl chunkStep ([], [])

/-- Claim C8: each streamed chunk is appended to at most one bucket (one
of the two accumulators is always left unchanged); a chunk whose node
matches `reporter` never touches the findings bucket; a chunk whose node
matches `researcher` or `coder` but not `reporter` never touches the
report bucket; and for the concrete node names of the graph, non-empty
reporter chunks go to the report bucket and non-empty researcher/coder
chunks go to the findings bucket. -/
theorem C8_chunk_buckets (acc : List String × List String)
    (e : StreamChunkEvent) (content : String) :
    ((chunkStep acc e).1 = acc.1 ∨ (chunkStep acc e).2 = acc.2) ∧
    (strContains e.node "reporter" = true → (chunkStep acc e).2 = acc.2) ∧
    ((strContains e.node "researcher" || strContains e.node "coder") = true ∧
        strContains e.node "reporter" = false →
      (chunkStep acc e).1 = acc.1) ∧
    (chunkDest { node := "reporter", content := content }
      = if content.isEmpty then none else some Bucket.report) ∧
    (chunkDest { node := "researcher", content := content }
      = if content.isEmpty then none else some Bucket.findings) ∧
    (chunkDest { node := "coder", content := content }
      = if content.isEmpty then none else some Bucket.findings) := by
  have h1 : strContains "reporter" "reporter" = true := by decide
  have h2 : strContains "researcher" "reporter" = false := by decide
  have h3 : strContains "researcher" "researcher" = true := by decide
  have h4 : strContains "coder" "reporter" = false := by decide
  have h5 : strContains "coder" "researcher" = false := by decide
  have h6 : strContains "coder" "coder" = true := by decide
  refine ⟨?_, ?_, ?_, ?_, ?_, ?_⟩
  · rcases hd : chunkDest e with _ | b
    · simp [chunkStep, hd]
    · cases b <;> simp [chunkStep, hd]
  · intro h
    by_cases hc : e.content.isEmpty <;> simp [chunkStep, chunkDest, hc, h]
  · rintro ⟨hrc, hrep⟩
    by_cases hc : e.content.isEmpty <;>
      simp [chunkStep, chunkDest, hc, hrc, hrep]
  · by_cases hc : content.isEmpty <;> simp [chunkDest, hc, h1]
  · by_cases hc : content.isEmpty <;> simp [chunkDest, hc, h2, h3]
  · by_cases hc : content.isEmpty <;> simp [chunkDest, hc, h4, h5, h6]

/-- Claim C8 (witness): the bucket facts at a concrete reporter chunk
and concrete content. -/
theorem C8_chunk_buckets_witness :
    ((chunkStep (["a"], ["b"]) { node := "reporter", content := "x" }).1
        = (["a"], ["b"]).1 ∨
      (chunkStep (["a"], ["b"]) { node := "reporter", content := "x" }).2
        = (["a"], ["b"]).2) ∧
    (strContains ({ node := "reporter", content := "x" } :
        StreamChunkEvent).node "reporter" = true →
      (chunkStep (["a"], ["b"]) { node := "reporter", content := "x" }).2
        = (["a"], ["b"]).2) ∧
    ((strContains ({ node := "reporter", content := "x" } :
          StreamChunkEvent).node "researcher" ||
        strContains ({ node := "reporter", content := "x" } :
          StreamChunkEvent).node "coder") = true ∧
        strContains ({ node := "reporter", content := "x" } :
          StreamChunkEvent).node "reporter" = false →
      (chunkStep (["a"], ["b"]) { node := "reporter", content := "x" }).1
        = (["a"], ["b"]).1) ∧
    (chunkDest { node := "reporter", content := "x" }
      = if ("x" : String).isEmpty then none else some Bucket.report) ∧
    (chunkDest { node := "researcher", content := "x" }
      = if ("x" : String).isEmpty then none else some Bucket.findings) ∧
    (chunkDest { node := "coder", content := "x" }
      = if ("x" : String).isEmpty then none else some Bucket.findings) :=
  C8_chunk_buckets (["a"], ["b"]) { node := "reporter", content := "x" } "x"

/-- Client metadata stored in the `API_KEYS` map
(`src/middleware/auth.py`). -/
structure ClientInfo where
  client_id : String
  description : String
deriving DecidableEq, Repr

/-- Result of `verify_api_key`: either the client info is returned, or an
`HTTPException` with status 401 and the given detail is raised. -/
inductive AuthResult where
  | ok (info : ClientInfo)
  | unauthorized (detail : String)
deriving DecidableEq, Repr

/-- Python `s.startswith(p)`. -/
def strStartsWith (s p : String) : Bool :=
  p.data.isPrefixOf s.data

/-- `verify_api_key` (auth.py lines 75-119): reject a missing header;
reject a token that does not start with `sk_live_` or `sk_test_`; reject
a token absent from the configured key map; otherwise return the stored
client info.  The `API_KEYS` dict is modelled as an association list. -/
def verify_api_key (api_keys : List (String × ClientInfo))
    (credentials : Option String) : AuthResult :=
  match credentials with
  | none =>
    .unauthorized
      "Missing authorization header. Include \x27Authorization: Bearer YOUR_API_KEY\x27"
  | some api_key =>
    if !(strStartsWith api_key "sk_live_" || strStartsWith api_key "sk_test_") then
      .unauthorized
        "Invalid API key format. Keys must start with \x27sk_live_\x27 or \x27sk_test_\x27"
    else
      match api_keys.lookup api_key with
      | none => .unauthorized "Invalid API key. Check your credentials."
      | some client_info => .ok client_info

/-- Claim C10: `verify_api_key` returns client info only if the presented
token both starts with `sk_live_` or `sk_test_` and is present in the
configured key map (and then returns exactly the stored info); any token
lacking one of those prefixes is rejected with 401 even when that exact
token is present in the key map. -/
theorem C10_verify_api_key (keys : List (String × ClientInfo))
    (token : String) (info : ClientInfo) :
    (verify_api_key keys (some token) = AuthResult.ok info →
      (strStartsWith token "sk_live_" || strStartsWith token "sk_test_") = true ∧
      keys.lookup token = some info) ∧
    ((strStartsWith token "sk_live_" || strStartsWith token "sk_test_") = false →
      verify_api_key keys (some token)
        = AuthResult.unauthorized
            "Invalid API key format. Keys must start with \x27sk_live_\x27 or \x27sk_test_\x27") := by
  constructor
  · intro h
    cases hp : (strStartsWith token "sk_live_" || strStartsWith token "sk_test_") with
    | false => simp [verify_api_key, hp] at h
    | true =>
      refine ⟨rfl, ?_⟩
      rcases hl : keys.lookup token with _ | i
      · simp [verify_api_key, hp, hl] at h
      · simp only [verify_api_key, hp, Bool.not_true, Bool.false_eq_true,
          if_false, hl] at h
        exact congrArg some (AuthResult.ok.inj h)
  · intro h
    simp [verify_api_key, h]

/-- A concrete client record used by the C10 witness. -/
def sampleClient : ClientInfo :=
  { client_id := "admin", description := "Admin API key" }

/-- Claim C10 (witness): the token `mykey` is present in the key map but
lacks both prefixes, and is rejected with the 401 format error. -/
theorem C10_verify_api_key_witness :
    verify_api_key [("mykey", sampleClient)] (some "mykey")
      = AuthResult.unauthorized
          "Invalid API key format. Keys must start with \x27sk_live_\x27 or \x27sk_test_\x27" :=
  (C10_verify_api_key [("mykey", sampleClient)] "mykey" sampleClient).2
    (by decide)

end DeerFlow
